import Mathlib

/-!
Verification of the deltafi-sdk pricing core (src/calculations) against its
specification.

The TypeScript source computes with bignumber.js arbitrary-precision decimal
values.  We embed those values as the type `BNum`: either a rational number or
one of the special values NaN, +Infinity, -Infinity, mirroring bignumber.js
semantics (0/0 = NaN, x/0 is a signed infinity, NaN propagates, comparisons
with NaN are false).  bignumber.js rounds the result of every division and square root
to DECIMAL_PLACES = 20 decimal places using the rounding mode of the
constructor performing the operation (the SDK clones constructors with
ROUND_CEIL / ROUND_FLOOR at the sites that matter; the default mode is
ROUND_HALF_UP, half away from zero); addition, subtraction, multiplication and
integer powers are exact.  We model this with `roundDp 20`.

Two JavaScript-specific aspects are abstracted, as floating point is
implementation-approximated there:
* `Math.pow` on finite base and finite non-zero exponent is a parameter
  `jsPow : ℚ → ℚ → ℚ` threaded through the definitions; all special cases of
  ECMA-262 `Math.pow` (NaN, infinities, zero exponent, ...) are modelled
  concretely in `jsPowExt`.
* `BigNumber.prototype.toNumber` (conversion to an IEEE double) and the
  `parseFloat(x).toString()` round-trip are modelled as value-preserving.
Theorems that depend on a curve output hold for every choice of `jsPow`.
-/

namespace Deltafi

/-- Rounding modes of bignumber.js used by the SDK: ROUND_CEIL (towards
+Infinity), ROUND_FLOOR (towards -Infinity) and the default ROUND_HALF_UP
(nearest neighbour, ties away from zero). -/
inductive RMode where
  | ceil
  | floor
  | halfUp
deriving DecidableEq

/-- Round a rational to `dp` decimal places with the given mode.  The ceiling
is expressed through `Int.floor` of the negation. -/
def roundDp (dp : ℕ) (m : RMode) (q : ℚ) : ℚ :=
  let s : ℚ := (10 : ℚ) ^ dp
  match m with
  | .ceil => -(((⌊-(q * s)⌋ : ℤ) : ℚ) / s)
  | .floor => ((⌊q * s⌋ : ℤ) : ℚ) / s
  | .halfUp =>
      if 0 ≤ q then ((⌊q * s + 1/2⌋ : ℤ) : ℚ) / s
      else -(((⌊-(q * s) + 1/2⌋ : ℤ) : ℚ) / s)

/-- A bignumber.js value: a finite rational or one of NaN, +Infinity,
-Infinity. -/
inductive BNum where
  | nan : BNum
  | pinf : BNum
  | ninf : BNum
  | num : ℚ → BNum
deriving DecidableEq

namespace BNum

/-- Negation of a bignumber.js value. -/
def neg : BNum → BNum
  | .nan => .nan
  | .pinf => .ninf
  | .ninf => .pinf
  | .num q => .num (-q)

end BNum

/-- bignumber.js `plus` (exact on finite values). -/
def bnAdd : BNum → BNum → BNum
  | .nan, _ => .nan
  | _, .nan => .nan
  | .pinf, .ninf => .nan
  | .ninf, .pinf => .nan
  | .pinf, _ => .pinf
  | _, .pinf => .pinf
  | .ninf, _ => .ninf
  | _, .ninf => .ninf
  | .num a, .num b => .num (a + b)

/-- bignumber.js `minus` (exact on finite values). -/
def bnSub (a b : BNum) : BNum := bnAdd a b.neg

/-- bignumber.js `multipliedBy` (exact on finite values; 0 times an infinity
is NaN). -/
def bnMul : BNum → BNum → BNum
  | .nan, _ => .nan
  | _, .nan => .nan
  | .pinf, .pinf => .pinf
  | .pinf, .ninf => .ninf
  | .ninf, .pinf => .ninf
  | .ninf, .ninf => .pinf
  | .pinf, .num b => if 0 < b then .pinf else if b < 0 then .ninf else .nan
  | .num a, .pinf => if 0 < a then .pinf else if a < 0 then .ninf else .nan
  | .ninf, .num b => if 0 < b then .ninf else if b < 0 then .pinf else .nan
  | .num a, .ninf => if 0 < a then .ninf else if a < 0 then .pinf else .nan
  | .num a, .num b => .num (a * b)

/-- bignumber.js `dividedBy` with a rounding mode: the quotient of finite
values is rounded to DECIMAL_PLACES = 20 decimal places; x/0 is a signed
infinity (NaN for 0/0). -/
def bnDivR (m : RMode) : BNum → BNum → BNum
  | .nan, _ => .nan
  | _, .nan => .nan
  | .pinf, .pinf => .nan
  | .pinf, .ninf => .nan
  | .ninf, .pinf => .nan
  | .ninf, .ninf => .nan
  | .pinf, .num b => if b < 0 then .ninf else .pinf
  | .ninf, .num b => if b < 0 then .pinf else .ninf
  | .num _, .pinf => .num 0
  | .num _, .ninf => .num 0
  | .num a, .num b =>
      if b = 0 then (if 0 < a then .pinf else if a < 0 then .ninf else .nan)
      else .num (roundDp 20 m (a / b))

/-- bignumber.js `isLessThanOrEqualTo`; false whenever NaN is involved. -/
def bnLe : BNum → BNum → Bool
  | .nan, _ => false
  | _, .nan => false
  | .ninf, _ => true
  | .pinf, .pinf => true
  | .pinf, _ => false
  | _, .pinf => true
  | _, .ninf => false
  | .num a, .num b => decide (a ≤ b)

/-- bignumber.js `isLessThan`; false whenever NaN is involved. -/
def bnLt : BNum → BNum → Bool
  | .nan, _ => false
  | _, .nan => false
  | .ninf, .ninf => false
  | .ninf, _ => true
  | .pinf, _ => false
  | .num _, .pinf => true
  | .num _, .ninf => false
  | .num a, .num b => decide (a < b)

/-- bignumber.js `isGreaterThan`. -/
def bnGt (a b : BNum) : Bool := bnLt b a

/-- bignumber.js `isEqualTo`; false whenever NaN is involved. -/
def bnEq : BNum → BNum → Bool
  | .num a, .num b => decide (a = b)
  | .pinf, .pinf => true
  | .ninf, .ninf => true
  | _, _ => false

/-- bignumber.js `isNegative`: sign is -1 (strictly negative finite values and
-Infinity; false on NaN). -/
def bnIsNeg : BNum → Bool
  | .num q => decide (q < 0)
  | .ninf => true
  | _ => false

/-- bignumber.js `isNaN`. -/
def bnIsNan : BNum → Bool
  | .nan => true
  | _ => false

/-- bignumber.js `abs`. -/
def bnAbs : BNum → BNum
  | .nan => .nan
  | .pinf => .pinf
  | .ninf => .pinf
  | .num q => .num |q|

/-- JavaScript `Math.floor` extended to special values. -/
def bnFloor : BNum → BNum
  | .num q => .num ((⌊q⌋ : ℤ) : ℚ)
  | x => x

/-- JavaScript `Math.ceil` extended to special values (expressed via floor of
the negation, so that proofs can evaluate it). -/
def bnCeil : BNum → BNum
  | .num q => .num (((-⌊-q⌋ : ℤ) : ℚ))
  | x => x

/-- JavaScript `Math.max` on two values; NaN wins. -/
def bnMax : BNum → BNum → BNum
  | .nan, _ => .nan
  | _, .nan => .nan
  | .pinf, _ => .pinf
  | _, .pinf => .pinf
  | .ninf, y => y
  | x, .ninf => x
  | .num a, .num b => .num (max a b)

/-- bignumber.js `toFixed(dp)` viewed as the rational value it denotes
(rounded half-up to `dp` decimal places). -/
def bnToFixed (dp : ℕ) : BNum → BNum
  | .num q => .num (roundDp dp .halfUp q)
  | x => x

/-- bignumber.js `exponentiatedBy` with a natural exponent (exact, since the
SDK leaves POW_PRECISION at its default 0 = unlimited). -/
def bnPowNat (x : BNum) (n : ℕ) : BNum :=
  if n = 0 then .num 1
  else
    match x with
    | .num q => .num (q ^ n)
    | .pinf => .pinf
    | .ninf => if n % 2 = 1 then .ninf else .pinf
    | .nan => .nan

/-- bignumber.js `exponentiatedBy` where the exponent is itself a value; the
SDK only ever reaches this with a non-negative integer (guarded by a
validate), so other exponents are modelled as NaN. -/
def bnPowInt (x : BNum) (e : BNum) : BNum :=
  match e with
  | .num k => if 0 ≤ k.num ∧ k.den = 1 then bnPowNat x k.num.toNat else .nan
  | _ => .nan

/-- Whether a rational is an odd integer (used by the `Math.pow` special
cases for negative bases). -/
def qOddInt (q : ℚ) : Bool := decide (q.den = 1) && decide (q.num % 2 ≠ 0)

/-- ECMA-262 `Math.pow`.  All special cases (NaN operands, zero exponent,
infinite operands, zero base, negative base with non-integer exponent) are
modelled concretely; the remaining finite case is implementation-approximated
in JavaScript and is therefore taken from the parameter `jsPow`. -/
def jsPowExt (jsPow : ℚ → ℚ → ℚ) : BNum → BNum → BNum
  | _, .nan => .nan
  | x, .pinf =>
      match x with
      | .nan => .nan
      | .pinf => .pinf
      | .ninf => .pinf
      | .num b => if 1 < |b| then .pinf else if |b| = 1 then .nan else .num 0
  | x, .ninf =>
      match x with
      | .nan => .nan
      | .pinf => .num 0
      | .ninf => .num 0
      | .num b => if 1 < |b| then .num 0 else if |b| = 1 then .nan else .pinf
  | x, .num e =>
      if e = 0 then .num 1
      else
        match x with
        | .nan => .nan
        | .pinf => if 0 < e then .pinf else .num 0
        | .ninf =>
            if 0 < e then (if qOddInt e then .ninf else .pinf)
            else .num 0
        | .num b =>
            if b = 0 then (if 0 < e then .num 0 else .pinf)
            else if b < 0 && !(decide (e.den = 1)) then .nan
            else .num (jsPow b e)

/-- One Newton step iteration for the integer square root, with explicit fuel
so that the kernel can evaluate it. -/
def isqrtAux (n : ℕ) : ℕ → ℕ → ℕ
  | 0, g => g
  | fuel + 1, g =>
      let g' := (g + n / g) / 2
      if g' < g then isqrtAux n fuel g' else g

/-- Integer square root by Newton iteration (200 steps of fuel cover all
numbers below 10 to the 60th power). -/
def isqrtNat (n : ℕ) : ℕ := if n ≤ 1 then n else isqrtAux n 200 n

/-- Least natural k with k * k * d ≥ t (for d > 0): the ceiling of the square
root of t/d, obtained from the Newton approximation and a short upward
scan. -/
def ceilSqrtScaled (t d : ℕ) : ℕ :=
  let f := isqrtNat (t / d)
  if t ≤ f * f * d then f
  else if t ≤ (f + 1) * (f + 1) * d then f + 1
  else f + 2

/-- bignumber.js `squareRoot` under a ROUND_CEIL constructor: the square root
rounded up to DECIMAL_PLACES = 20 decimal places.  Negative finite values give
NaN. -/
def bnSqrtCeil20 : BNum → BNum
  | .nan => .nan
  | .ninf => .nan
  | .pinf => .pinf
  | .num q =>
      if q < 0 then .nan
      else .num ((ceilSqrtScaled (q.num.toNat * 10 ^ 40) q.den : ℚ) / 10 ^ 20)

end Deltafi

namespace Deltafi

/-! ### String parsing

`new BigNumber(string)` is modelled after the bignumber.js constructor:
first the anchored decimal grammar
sign? (digits (point digits?)? | point digits) (exponent-marker sign? digits)?
is tried on the raw string; if it fails, the parseNumeric fallback strips
leading whitespace (and a leading plus) and trailing whitespace, recognises
the Infinity and NaN literals, and handles the 0x / 0o / 0b base prefixes
(with an optional leading minus; letter digits must be uniformly lower or
upper case, and base-converted values are rounded to DECIMAL_PLACES = 20
half-up as the library's base conversion does); a stripped string that
changed is re-parsed against the decimal grammar.  Everything else is NaN.

The engine's negativity test `parseFloat(amountIn) < 0` is modelled
separately by `parseFloatIsNeg`, because JavaScript `parseFloat` reads the
longest decimal-literal prefix: on "-0x11" it stops at the x and yields -0,
which is not < 0, even though new BigNumber parses -17.  The exponent of the
prefix cannot change its sign or zeroness, so it is not consumed here. -/

/-- Numeric value of a decimal digit character, if it is one. -/
def charDigit? (c : Char) : Option ℕ :=
  if c = '0' then some 0 else if c = '1' then some 1 else if c = '2' then some 2
  else if c = '3' then some 3 else if c = '4' then some 4 else if c = '5' then some 5
  else if c = '6' then some 6 else if c = '7' then some 7 else if c = '8' then some 8
  else if c = '9' then some 9 else none

/-- Split a character list into its leading digits and the rest. -/
def takeDigits : List Char → (List ℕ × List Char)
  | [] => ([], [])
  | c :: rest =>
      match charDigit? c with
      | some d =>
          let (ds, r) := takeDigits rest
          (d :: ds, r)
      | none => ([], c :: rest)

/-- Natural number denoted by a digit list (most significant first). -/
def digitsToNat (ds : List ℕ) : ℕ := ds.foldl (fun acc d => 10 * acc + d) 0

/-- Strip an optional sign; returns whether the value is negated. -/
def parseSign : List Char → (Bool × List Char)
  | '-' :: r => (true, r)
  | '+' :: r => (false, r)
  | cs => (false, cs)

/-- Parse the mantissa `digits (point digits?)?`; yields the integer part,
the fraction digits as a natural number, the number of fraction digits, and
the remaining characters.  Fails when there is no digit at all. -/
def parseMantissa (cs : List Char) : Option (ℕ × ℕ × ℕ × List Char) :=
  let (ids, r1) := takeDigits cs
  match r1 with
  | '.' :: r2 =>
      let (fds, r3) := takeDigits r2
      if ids.length + fds.length = 0 then none
      else some (digitsToNat ids, digitsToNat fds, fds.length, r3)
  | _ => if ids.length = 0 then none else some (digitsToNat ids, 0, 0, r1)

/-- Parse an optional exponent marker with a signed digit string. -/
def parseExponent (cs : List Char) : Option (ℤ × List Char) :=
  match cs with
  | 'e' :: r | 'E' :: r =>
      let (sgn, r1) := parseSign r
      let (ds, r2) := takeDigits r1
      if ds.length = 0 then none
      else some ((if sgn then -(digitsToNat ds : ℤ) else (digitsToNat ds : ℤ)), r2)
  | _ => some (0, cs)

/-- The anchored decimal grammar of the bignumber.js constructor (its
isNumeric regular expression), on a character list; full consumption
required. -/
def parseBNMain (cs : List Char) : Option ℚ :=
  let (sgn, cs1) := parseSign cs
  match parseMantissa cs1 with
  | none => none
  | some (ip, fp, fl, rest) =>
      match parseExponent rest with
      | none => none
      | some (e, rest2) =>
          if rest2 = [] then
            some (if sgn then -(((ip : ℚ) + (fp : ℚ) / 10 ^ fl) * (10 : ℚ) ^ e)
              else ((ip : ℚ) + (fp : ℚ) / 10 ^ fl) * (10 : ℚ) ^ e)
          else none

/-- JavaScript whitespace (the common ASCII subset). -/
def isWhitespaceChar (c : Char) : Bool :=
  c == ' ' || c == '\t' || c == '\n' || c == '\r'

/-- The whitespace-or-plus stripping of bignumber.js parseNumeric: leading
whitespace, one leading plus, and trailing whitespace are removed. -/
def stripWhitespacePlus (cs : List Char) : List Char :=
  let t := cs.dropWhile isWhitespaceChar
  let u := match t with
    | '+' :: r => r
    | _ => t
  (u.reverse.dropWhile isWhitespaceChar).reverse

/-- The Infinity and NaN literals recognised by bignumber.js parseNumeric
(sign only meaningful for Infinity). -/
def parseInfNan (cs : List Char) : Option BNum :=
  if cs = "Infinity".data then some .pinf
  else if cs = "-Infinity".data then some .ninf
  else if cs = "NaN".data ∨ cs = "-NaN".data then some .nan
  else none

/-- Value of a binary digit character. -/
def binDigit? (c : Char) : Option ℕ :=
  if c = '0' then some 0 else if c = '1' then some 1 else none

/-- Value of an octal digit character. -/
def octDigit? (c : Char) : Option ℕ :=
  match charDigit? c with
  | some d => if d ≤ 7 then some d else none
  | none => none

/-- Value of a lower-case hexadecimal digit character. -/
def hexDigitLower? (c : Char) : Option ℕ :=
  match charDigit? c with
  | some d => some d
  | none =>
      if c = 'a' then some 10 else if c = 'b' then some 11
      else if c = 'c' then some 12 else if c = 'd' then some 13
      else if c = 'e' then some 14 else if c = 'f' then some 15
      else none

/-- Value of an upper-case hexadecimal digit character. -/
def hexDigitUpper? (c : Char) : Option ℕ :=
  match charDigit? c with
  | some d => some d
  | none =>
      if c = 'A' then some 10 else if c = 'B' then some 11
      else if c = 'C' then some 12 else if c = 'D' then some 13
      else if c = 'E' then some 14 else if c = 'F' then some 15
      else none

/-- Leading digits of an arbitrary base, with the rest of the input. -/
def takeDigitsBase (dv : Char → Option ℕ) : List Char → (List ℕ × List Char)
  | [] => ([], [])
  | c :: rest =>
      match dv c with
      | some d =>
          let (ds, r) := takeDigitsBase dv rest
          (d :: ds, r)
      | none => ([], c :: rest)

/-- Natural number denoted by a digit list in the given base. -/
def digitsToNatBase (b : ℕ) (ds : List ℕ) : ℕ :=
  ds.foldl (fun acc d => b * acc + d) 0

/-- bignumber.js base parsing after a 0x / 0o / 0b prefix: digits with at
most one decimal point, not in first position, fully consuming the input. -/
def parseBasePart (dv : Char → Option ℕ) (b : ℕ) (cs : List Char) : Option ℚ :=
  let (ids, r1) := takeDigitsBase dv cs
  if ids.length = 0 then none
  else
    match r1 with
    | [] => some ((digitsToNatBase b ids : ℕ) : ℚ)
    | '.' :: r2 =>
        let (fds, r3) := takeDigitsBase dv r2
        if r3 = [] then
          some (((digitsToNatBase b ids : ℕ) : ℚ) +
            ((digitsToNatBase b fds : ℕ) : ℚ) / (b : ℚ) ^ fds.length)
        else none
    | _ => none

/-- bignumber.js base-prefix handling: an optional minus, then 0x / 0X
(hexadecimal), 0b / 0B (binary) or 0o / 0O (octal); hexadecimal letter
digits must be uniformly lower case or uniformly upper case (the library
allows exactly one whole-string case flip).  The converted value is rounded
to 20 decimal places half-up, as the library's base conversion rounds to
DECIMAL_PLACES. -/
def parsePrefixed (cs : List Char) : Option ℚ :=
  let sgned : Bool × List Char :=
    match cs with
    | '-' :: r => (true, r)
    | r => (false, r)
  match sgned.2 with
  | '0' :: c :: rest =>
      let part : Option ℚ :=
        if c = 'x' ∨ c = 'X' then
          match parseBasePart hexDigitLower? 16 rest with
          | some v => some v
          | none => parseBasePart hexDigitUpper? 16 rest
        else if c = 'b' ∨ c = 'B' then parseBasePart binDigit? 2 rest
        else if c = 'o' ∨ c = 'O' then parseBasePart octDigit? 8 rest
        else none
      match part with
      | some v => some (roundDp 20 .halfUp (if sgned.1 then -v else v))
      | none => none
  | _ => none

/-- `new BigNumber(s)` for a string: the decimal grammar on the raw string,
else the parseNumeric fallback (whitespace and plus stripping, the Infinity
and NaN literals, the base prefixes, and a re-parse of a stripped string
that changed); otherwise NaN. -/
def parseBN (s : String) : BNum :=
  match parseBNMain s.data with
  | some q => .num q
  | none =>
      let t := stripWhitespacePlus s.data
      match parseInfNan t with
      | some v => v
      | none =>
          match parsePrefixed t with
          | some q => .num q
          | none =>
              if t ≠ s.data then
                match parseBNMain t with
                | some q => .num q
                | none => .nan
              else .nan

/-- Whether the input starts with the Infinity literal (after sign). -/
def isInfinityPrefix (cs : List Char) : Bool :=
  decide (cs.take 8 = "Infinity".data)

/-- The magnitude of the longest decimal-literal prefix read by JavaScript
`parseFloat`, without its exponent: digits with an optional fraction.  The
exponent cannot change the sign or zeroness of the value, which is all the
negativity test consumes. -/
def parseFloatMag (cs : List Char) : Option ℚ :=
  let (ids, r1) := takeDigits cs
  match r1 with
  | '.' :: r2 =>
      let (fds, _) := takeDigits r2
      if ids.length + fds.length = 0 then none
      else some ((digitsToNat ids : ℚ) + (digitsToNat fds : ℚ) / 10 ^ fds.length)
  | _ => if ids.length = 0 then none else some ((digitsToNat ids : ℚ))

/-- Models `parseFloat(s) < 0`: after leading whitespace, the value is
negative exactly when a minus sign is followed by the Infinity literal or by
a decimal-literal prefix with non-zero magnitude.  NaN and -0 (for example
from "-0x11", where parseFloat stops at the x) are not negative. -/
def parseFloatIsNeg (s : String) : Bool :=
  match s.data.dropWhile isWhitespaceChar with
  | '-' :: r =>
      if isInfinityPrefix r then true
      else
        match parseFloatMag r with
        | some v => decide (0 < v)
        | none => false
  | _ => false

/-! ### Data model (src/anchor/type_definitions.ts, src/calculations/types.ts)

Only the fields the pricing core reads are carried.  The on-chain u64 values
(reserves, fee fractions, percentages, the WAD-scaled slope) are naturals;
`swapType` and the swap direction, encoded in the source as objects with a
truthy variant key, are proper sum types. -/

structure TokenConfig where
  mint : String
  decimals : ℕ
deriving DecidableEq

structure PoolState where
  baseReserve : ℕ
  quoteReserve : ℕ
  targetBaseReserve : ℕ
  targetQuoteReserve : ℕ
deriving DecidableEq

structure SwapConfig where
  tradeFeeNumerator : ℕ
  tradeFeeDenominator : ℕ
  adminTradeFeeNumerator : ℕ
  adminTradeFeeDenominator : ℕ
  minReserveLimitPercentage : ℕ
  virtualReservePercentage : ℕ
  enableConfidenceInterval : Bool
  slope : ℕ
deriving DecidableEq

inductive SwapType where
  | normalSwap
  | stableSwap
deriving DecidableEq

inductive SwapDirection where
  | sellBase
  | sellQuote
deriving DecidableEq

structure SwapInfo where
  swapType : SwapType
  mintBase : String
  mintQuote : String
  mintBaseDecimals : ℕ
  mintQuoteDecimals : ℕ
  poolState : PoolState
  swapConfig : SwapConfig
deriving DecidableEq

/-- Failure taxonomy of the quote engine (thrown `Error`s in the source). -/
inductive SwapError where
  | invalidAmount
  | invalidTokenPair
  | internalInvariant (msg : String)
deriving DecidableEq

/-- Result of a curve kernel: raw out amount and price impact. -/
structure OutResult where
  outAmount : BNum
  priceImpact : BNum
deriving DecidableEq

/-- Result of `approximateOutAmount`.  The skip sentinel (`null` in the
revision of calculation.ts that tests `=== null`, the integer 0 in the older
revision) is modelled as `none`. -/
structure ApproxResult where
  impliedOutAmount : BNum
  approximationResult : Option BNum
deriving DecidableEq

structure SwappedAmounts where
  amountIn : BNum
  amountOut : BNum
  priceImpact : BNum
deriving DecidableEq

/-- The record returned by the quote entry points.  The numeric fields are
decimal strings in the source; they are modelled by the rational (or special)
values those strings denote, with the `parseFloat(x).toString()` round-trip
taken as value-preserving.  `amountIn` is passed through verbatim as a
string. -/
structure SwapResult where
  amountIn : String
  amountOut : BNum
  amountOutWithSlippage : BNum
  fee : BNum
  priceImpact : BNum
  insufficientLiquidity : Bool
deriving DecidableEq

/-- The empty result returned for a non-numeric input amount (its string
fields are empty, denoting NaN). -/
def emptyResult : SwapResult := ⟨"", .nan, .nan, .nan, .nan, false⟩

/-- The zero result returned for a zero input amount (all numeric fields are
the string "0"). -/
def zeroResult : SwapResult := ⟨"0", .num 0, .num 0, .num 0, .num 0, false⟩

/-! ### Fixed-point helpers (src/calculations/utils.ts, tokenUtils.ts) -/

/-- WAD = 1e18, the scale of the stored slope. -/
def WAD : ℚ := 10 ^ 18

/-- `exponentiate(num, decimals)`: multiply by 10^decimals (exact). -/
def exponentiate (x : BNum) (decimals : ℕ) : BNum :=
  bnMul x (.num ((10 : ℚ) ^ decimals))

/-- `exponentiatedBy(num, decimals)`: divide by 10^decimals (a bignumber.js
division, hence rounded to 20 decimal places half-up). -/
def exponentiatedBy (x : BNum) (decimals : ℕ) : BNum :=
  bnDivR .halfUp x (.num ((10 : ℚ) ^ decimals))

/-- FLOAT_ROUND_UP_ESPSILON = 6e-17 from calculation.ts. -/
def floatRoundUpEps : ℚ := 6 / 10 ^ 17

/-! ### Normal-swap curve kernel (src/calculations/calculation.ts and
approximation.ts) -/

/-- calculation.ts `calculateOutAmountNormalSwapInternal`:
b - b * ((a / (a + m)) ^ (P * A / B)) with ceil on the core quotient, floor
on the exponent, the float power raised by epsilon, and the early negative
check on a + m. -/
def calculateOutAmountNormalSwapInternal (jsPow : ℚ → ℚ → ℚ)
    (marketPrice targetReserveA targetReserveB currentReserveA currentReserveB
      inputAAmount : BNum) : BNum :=
  let coreDenumerator := bnAdd currentReserveA inputAAmount
  if bnIsNeg coreDenumerator then .ninf
  else
    let core := bnDivR .ceil currentReserveA coreDenumerator
    let e := bnDivR .floor (bnMul marketPrice targetReserveA) targetReserveB
    let coreExpNumber := bnAdd (jsPowExt jsPow core e) (.num floatRoundUpEps)
    let coreExp := bnMul currentReserveB coreExpNumber
    bnSub currentReserveB coreExp

/-- approximation.ts: exp_ceil = Math.ceil of P * A / B (a bignumber.js
division rounded to 20 decimal places half-up, converted to a number). -/
def approxExpCeil (marketPrice targetReserveA targetReserveB : BNum) : BNum :=
  bnCeil (bnDivR .halfUp (bnMul marketPrice targetReserveA) targetReserveB)

/-- approximation.ts: the implied out amount
b * m * P * A / (B * a) before flooring. -/
def approxImpliedOutAmount
    (currentReserveA currentReserveB targetReserveA targetReserveB marketPrice
      inputAAmount : BNum) : BNum :=
  bnDivR .halfUp
    (bnMul (bnMul (bnMul currentReserveB inputAAmount) marketPrice) targetReserveA)
    (bnMul targetReserveB currentReserveA)

/-- approximation.ts `approximateUpperBoundK`: ceil((a/(a+m))^expCeil with a
ceil quotient) divided (ceil) by floor((a - m*expCeil)/a). -/
def approximateUpperBoundK (currentReserveA inputAAmount expCeil : BNum) : BNum :=
  let coreHigh :=
    bnPowInt (bnDivR .ceil currentReserveA (bnAdd currentReserveA inputAAmount)) expCeil
  let coreLow :=
    bnDivR .floor (bnSub currentReserveA (bnMul inputAAmount expCeil)) currentReserveA
  bnDivR .ceil coreHigh coreLow

/-- approximation.ts: diffFromImpliedAmount = (k1*k2 - 1) * (b - implied). -/
def approxDiff
    (currentReserveA currentReserveB targetReserveA targetReserveB marketPrice
      inputAAmount : BNum) : BNum :=
  let kProduct :=
    approximateUpperBoundK currentReserveA inputAAmount
      (approxExpCeil marketPrice targetReserveA targetReserveB)
  bnMul (bnSub kProduct (.num 1))
    (bnSub currentReserveB
      (approxImpliedOutAmount currentReserveA currentReserveB targetReserveA
        targetReserveB marketPrice inputAAmount))

/-- approximation.ts `approximateOutAmount`.  The two validate calls become
errors; the skip sentinel becomes `none`. -/
def approximateOutAmount
    (currentReserveA currentReserveB targetReserveA targetReserveB marketPrice
      inputAAmount : BNum) : Except SwapError ApproxResult :=
  let implied :=
    approxImpliedOutAmount currentReserveA currentReserveB targetReserveA
      targetReserveB marketPrice inputAAmount
  let expCeil := approxExpCeil marketPrice targetReserveA targetReserveB
  if bnLt expCeil (.num 255) then
    if bnLe currentReserveA (bnMul inputAAmount expCeil) || bnLe currentReserveB inputAAmount then
      .ok ⟨bnFloor implied, none⟩
    else
      let diffFromImpliedAmount :=
        approxDiff currentReserveA currentReserveB targetReserveA targetReserveB
          marketPrice inputAAmount
      if bnLe (bnAbs implied) diffFromImpliedAmount then
        .ok ⟨bnFloor implied, none⟩
      else
        let approximationResult := bnFloor (bnSub implied diffFromImpliedAmount)
        if bnLe approximationResult (bnFloor implied) then
          .ok ⟨bnFloor implied, some approximationResult⟩
        else
          .error (.internalInvariant
            "approximation result should not be larger than the implied out amount")
  else .error (.internalInvariant "exponent is too large")

/-- calculation.ts `calculateOutAmountNormalSwap`: the maximum of the
approximation result (when available) and the floored closed form, guarded by
the implied-amount validate, then the price impact. -/
def calculateOutAmountNormalSwap (jsPow : ℚ → ℚ → ℚ)
    (marketPrice targetReserveA targetReserveB currentReserveA currentReserveB
      inputAAmount : BNum) : Except SwapError OutResult :=
  match approximateOutAmount currentReserveA currentReserveB targetReserveA
      targetReserveB marketPrice inputAAmount with
  | .error e => .error e
  | .ok ar =>
      let calculationResult :=
        bnFloor (calculateOutAmountNormalSwapInternal jsPow marketPrice
          targetReserveA targetReserveB currentReserveA currentReserveB inputAAmount)
      let outputBAmount :=
        match ar.approximationResult with
        | none => calculationResult
        | some v => bnMax v calculationResult
      if bnLe outputBAmount ar.impliedOutAmount then
        if bnEq inputAAmount (.num 0) then .ok ⟨outputBAmount, .num 0⟩
        else
          let impliedPrice :=
            bnDivR .halfUp
              (bnDivR .halfUp
                (bnMul (bnMul marketPrice currentReserveB) targetReserveA)
                currentReserveA)
              targetReserveB
          let actualPrice := bnDivR .halfUp outputBAmount inputAAmount
          let priceImpact :=
            if bnEq actualPrice .pinf then .pinf
            else bnAbs (bnDivR .halfUp (bnSub impliedPrice actualPrice) actualPrice)
          .ok ⟨outputBAmount, priceImpact⟩
      else
        .error (.internalInvariant
          "final result for swap out amount should not be larger than the implied out amount")

/-! ### Stable-swap curve kernel (src/calculations/calculation.ts) -/

/-- calculation.ts `calculateBalancedReservesStableSwap`: positive root of the
quadratic, with a ceil square root and ceil divisions. -/
def calculateBalancedReservesStableSwap
    (stablePrice currentReserveA currentReserveB slope : BNum) : BNum × BNum :=
  let coefA := bnMul (bnSub (.num 2) slope) stablePrice
  let coefBNeg :=
    bnMul (bnSub (.num 1) slope)
      (bnAdd (bnMul currentReserveA stablePrice) currentReserveB)
  let coefCNeg := bnMul (bnMul slope currentReserveA) currentReserveB
  let core :=
    bnSqrtCeil20
      (bnAdd (bnMul coefBNeg coefBNeg) (bnMul (bnMul coefA coefCNeg) (.num 4)))
  let balancedReserveA := bnDivR .ceil (bnDivR .ceil (bnAdd coefBNeg core) coefA) (.num 2)
  (balancedReserveA, bnMul balancedReserveA stablePrice)

/-- calculation.ts `calculateOutAmountStableSwapInternal`: the flat-curve
output, with floor on the multiplicand quotient and on the core quotient, and
the -Infinity sentinel on a non-positive denominator. -/
def calculateOutAmountStableSwapInternal
    (balancedReserveA balancedReserveB currentReserveA currentReserveB
      inputAAmount slope : BNum) : BNum :=
  let multiplicand :=
    bnAdd (bnDivR .floor (bnMul balancedReserveB (bnSub (.num 1) slope)) slope)
      currentReserveB
  let coreNumerator :=
    bnAdd (bnMul (bnSub (.num 1) slope) balancedReserveA)
      (bnMul slope currentReserveA)
  let coreDenumerator :=
    bnAdd (bnMul (bnSub (.num 1) slope) balancedReserveA)
      (bnMul slope (bnAdd currentReserveA inputAAmount))
  if bnLe coreDenumerator (.num 0) then .ninf
  else
    bnMul multiplicand (bnSub (.num 1) (bnDivR .floor coreNumerator coreDenumerator))

/-- calculation.ts `calculateOutAmountStableSwap`: balanced reserves, then the
flat-curve output rounded to an integer by toFixed(0), and the price
impact. -/
def calculateOutAmountStableSwap
    (stablePrice currentReserveA currentReserveB inputAAmount slope : BNum) :
    OutResult :=
  let br := calculateBalancedReservesStableSwap stablePrice currentReserveA
    currentReserveB slope
  let balancedReserveA := br.1
  let balancedReserveB := br.2
  let outputBAmount :=
    calculateOutAmountStableSwapInternal balancedReserveA balancedReserveB
      currentReserveA currentReserveB inputAAmount slope
  let impliedPrice :=
    bnDivR .halfUp
      (bnAdd currentReserveB
        (bnDivR .halfUp (bnMul balancedReserveB (bnSub (.num 1) slope)) slope))
      (bnAdd currentReserveA
        (bnMul balancedReserveA (bnDivR .halfUp (bnSub (.num 1) slope) slope)))
  let actualPrice := bnDivR .halfUp outputBAmount inputAAmount
  let priceImpact := bnAbs (bnDivR .halfUp (bnSub impliedPrice actualPrice) actualPrice)
  ⟨bnToFixed 0 outputBAmount, priceImpact⟩

end Deltafi

namespace Deltafi

/-! ### Reserve analytics (src/calculations/swapOutAmount.ts) -/

/-- swapOutAmount.ts `getNormalizedReserves`: project the reserves onto the
target ratio preserving TVL at the market price.  The coefficient is a
bignumber.js division (rounded to 20 decimal places half-up); the two
multiplications are exact. -/
def getNormalizedReserves
    (baseReserve quoteReserve targetBaseReserve targetQuoteReserve marketPrice :
      BNum) : BNum × BNum :=
  let coefNumberator := bnAdd (bnMul baseReserve marketPrice) quoteReserve
  let coefDenumerator := bnAdd (bnMul targetBaseReserve marketPrice) targetQuoteReserve
  let coef := bnDivR .halfUp coefNumberator coefDenumerator
  (bnMul coef targetBaseReserve, bnMul coef targetQuoteReserve)

/-- swapOutAmount.ts `getVirtualReserves`: the normalized reserves scaled by
virtualReservePercentage / 100 (the percentage quotient is a bignumber.js
division). -/
def getVirtualReserves (swapInfo : SwapInfo) (marketPrice : BNum) : BNum × BNum :=
  let nr := getNormalizedReserves
    (.num (swapInfo.poolState.baseReserve : ℚ))
    (.num (swapInfo.poolState.quoteReserve : ℚ))
    (.num (swapInfo.poolState.targetBaseReserve : ℚ))
    (.num (swapInfo.poolState.targetQuoteReserve : ℚ))
    marketPrice
  let pct := bnDivR .halfUp (.num (swapInfo.swapConfig.virtualReservePercentage : ℚ)) (.num 100)
  (bnMul nr.1 pct, bnMul nr.2 pct)

/-- swapOutAmount.ts `getReservesAfterSwap`: add the input on the sell side,
subtract the output on the other. -/
def getReservesAfterSwap (poolState : PoolState)
    (amountAddedIn amountSubstractedOut : BNum) (swapDirection : SwapDirection) :
    BNum × BNum :=
  let baseReserve : BNum := .num (poolState.baseReserve : ℚ)
  let quoteReserve : BNum := .num (poolState.quoteReserve : ℚ)
  match swapDirection with
  | .sellBase =>
      (bnAdd baseReserve amountAddedIn, bnSub quoteReserve amountSubstractedOut)
  | .sellQuote =>
      (bnSub baseReserve amountSubstractedOut, bnAdd quoteReserve amountAddedIn)

/-- swapOutAmount.ts `checkIfReserveIsSufficient`: both reserves must strictly
exceed minReserveLimitPercentage / 100 of the corresponding normalized
reserve. -/
def checkIfReserveIsSufficient
    (baseReserve quoteReserve normalizedBaseReserve normalizedQuoteReserve :
      BNum) (swapConfig : SwapConfig) : Bool :=
  bnGt baseReserve
    (bnDivR .halfUp
      (bnMul normalizedBaseReserve (.num (swapConfig.minReserveLimitPercentage : ℚ)))
      (.num 100)) &&
  bnGt quoteReserve
    (bnDivR .halfUp
      (bnMul normalizedQuoteReserve (.num (swapConfig.minReserveLimitPercentage : ℚ)))
      (.num 100))

/-- swapOutAmount.ts `IsSufficientReserve`: apply the trade to the reserves,
recompute the normalized reserves from the post-trade state, and check the
limit. -/
def IsSufficientReserve (swapDirection : SwapDirection) (swapInfo : SwapInfo)
    (amountAddedIn amountSubstractedOut marketPrice : BNum) : Bool :=
  let ra := getReservesAfterSwap swapInfo.poolState amountAddedIn
    amountSubstractedOut swapDirection
  let nr := getNormalizedReserves ra.1 ra.2
    (.num (swapInfo.poolState.targetBaseReserve : ℚ))
    (.num (swapInfo.poolState.targetQuoteReserve : ℚ))
    marketPrice
  checkIfReserveIsSufficient ra.1 ra.2 nr.1 nr.2 swapInfo.swapConfig

/-! ### Quote engine (src/calculations/swapOutAmount.ts) -/

/-- swapOutAmount.ts `getStableMarketPrice`: 10 ^ (quoteDecimals -
baseDecimals), an exact power of ten. -/
def getStableMarketPrice (swapInfo : SwapInfo) : BNum :=
  .num ((10 : ℚ) ^ ((swapInfo.mintQuoteDecimals : ℤ) - (swapInfo.mintBaseDecimals : ℤ)))

/-- swapOutAmount.ts `normalizeMarketPriceWithDecimals`: scale the market
price by the decimal difference of the two mints. -/
def normalizeMarketPriceWithDecimals (marketPrice : BNum)
    (mintBaseDecimals mintQuoteDecimals : ℕ) : BNum :=
  if mintBaseDecimals > mintQuoteDecimals then
    exponentiatedBy marketPrice (mintBaseDecimals - mintQuoteDecimals)
  else if mintBaseDecimals < mintQuoteDecimals then
    exponentiate marketPrice (mintQuoteDecimals - mintBaseDecimals)
  else marketPrice

/-- swapOutAmount.ts `getSwapDirection` from the mints of the two tokens. -/
def getSwapDirection (fromToken toToken : TokenConfig) (swapInfo : SwapInfo) :
    Except SwapError SwapDirection :=
  if fromToken.mint = swapInfo.mintBase ∧ toToken.mint = swapInfo.mintQuote then
    .ok .sellBase
  else if fromToken.mint = swapInfo.mintQuote ∧ toToken.mint = swapInfo.mintBase then
    .ok .sellQuote
  else .error .invalidTokenPair

/-- swapOutAmount.ts `getSwapOutAmountSellBase`: reserve A is the base
reserve.  For a normal swap the virtual reserves are added to the current
reserves fed to the kernel; a stable swap gets the unaugmented reserves and
the WAD-descaled slope. -/
def getSwapOutAmountSellBase (jsPow : ℚ → ℚ → ℚ) (pool : SwapInfo)
    (amountIn marketPrice : BNum) : Except SwapError OutResult :=
  let vr := getVirtualReserves pool marketPrice
  match pool.swapType with
  | .normalSwap =>
      calculateOutAmountNormalSwap jsPow marketPrice
        (.num (pool.poolState.targetBaseReserve : ℚ))
        (.num (pool.poolState.targetQuoteReserve : ℚ))
        (bnAdd (.num (pool.poolState.baseReserve : ℚ)) vr.1)
        (bnAdd (.num (pool.poolState.quoteReserve : ℚ)) vr.2)
        amountIn
  | .stableSwap =>
      .ok (calculateOutAmountStableSwap (getStableMarketPrice pool)
        (.num (pool.poolState.baseReserve : ℚ))
        (.num (pool.poolState.quoteReserve : ℚ))
        amountIn
        (bnDivR .halfUp (.num (pool.swapConfig.slope : ℚ)) (.num WAD)))

/-- swapOutAmount.ts `getSwapOutAmountSellQuote`: reserve A is the quote
reserve and the market price is inverted (for stable swaps, the reciprocal of
the stable price). -/
def getSwapOutAmountSellQuote (jsPow : ℚ → ℚ → ℚ) (pool : SwapInfo)
    (amountIn marketPrice : BNum) : Except SwapError OutResult :=
  let vr := getVirtualReserves pool marketPrice
  match pool.swapType with
  | .normalSwap =>
      calculateOutAmountNormalSwap jsPow (bnDivR .halfUp (.num 1) marketPrice)
        (.num (pool.poolState.targetQuoteReserve : ℚ))
        (.num (pool.poolState.targetBaseReserve : ℚ))
        (bnAdd (.num (pool.poolState.quoteReserve : ℚ)) vr.2)
        (bnAdd (.num (pool.poolState.baseReserve : ℚ)) vr.1)
        amountIn
  | .stableSwap =>
      .ok (calculateOutAmountStableSwap
        (bnDivR .halfUp (.num 1) (getStableMarketPrice pool))
        (.num (pool.poolState.quoteReserve : ℚ))
        (.num (pool.poolState.baseReserve : ℚ))
        amountIn
        (bnDivR .halfUp (.num (pool.swapConfig.slope : ℚ)) (.num WAD)))

/-- swapOutAmount.ts `getSwappedAmountsAndPriceImpact`.  The two optional
prices are the parameters named marketPriceSellBase and marketPriceSellQuote
in the source; if either is absent or enableConfidenceInterval is false, the
mid market price is used for both.  The caller `calculateSwapOutResult`
passes the LOW price in the sell-base slot and the HIGH price in the
sell-quote slot. -/
def getSwappedAmountsAndPriceImpact (jsPow : ℚ → ℚ → ℚ) (swapInfo : SwapInfo)
    (swapDirection : SwapDirection) (amountIn marketPrice : BNum)
    (marketPriceSellBase marketPriceSellQuote : Option BNum) :
    Except SwapError SwappedAmounts :=
  let prices : BNum × BNum :=
    match marketPriceSellBase, marketPriceSellQuote with
    | some pb, some pq =>
        if swapInfo.swapConfig.enableConfidenceInterval = false then
          (marketPrice, marketPrice)
        else (pb, pq)
    | _, _ => (marketPrice, marketPrice)
  match swapDirection with
  | .sellBase =>
      let rawAmountIn := exponentiate amountIn swapInfo.mintBaseDecimals
      let normalizedMaketPrice := normalizeMarketPriceWithDecimals prices.1
        swapInfo.mintBaseDecimals swapInfo.mintQuoteDecimals
      match getSwapOutAmountSellBase jsPow swapInfo rawAmountIn normalizedMaketPrice with
      | .error e => .error e
      | .ok r =>
          .ok ⟨amountIn, exponentiatedBy r.outAmount swapInfo.mintQuoteDecimals,
            r.priceImpact⟩
  | .sellQuote =>
      let rawAmountIn := exponentiate amountIn swapInfo.mintQuoteDecimals
      let normalizedMaketPrice := normalizeMarketPriceWithDecimals prices.2
        swapInfo.mintBaseDecimals swapInfo.mintQuoteDecimals
      match getSwapOutAmountSellQuote jsPow swapInfo rawAmountIn normalizedMaketPrice with
      | .error e => .error e
      | .ok r =>
          .ok ⟨amountIn, exponentiatedBy r.outAmount swapInfo.mintBaseDecimals,
            r.priceImpact⟩

/-- swapOutAmount.ts `calculateSwapOutResult`, the forward quote entry point:
parse the amount (NaN gives the empty result, zero the zero result, negative
an InvalidAmount error), resolve the direction, run the curve, apply the
trade fee, the slippage bound and the final string rounding, and run the
reserve-sufficiency check at the mid price. -/
def calculateSwapOutResult (jsPow : ℚ → ℚ → ℚ) (swapInfo : SwapInfo)
    (fromToken toToken : TokenConfig) (amountIn : String) (maxSlippage : ℚ)
    (marketPrice : BNum) (marketPriceLow marketPriceHigh : Option BNum) :
    Except SwapError SwapResult :=
  let amountInBN := parseBN amountIn
  if bnIsNan amountInBN then .ok emptyResult
  else if bnEq amountInBN (.num 0) then .ok zeroResult
  else if parseFloatIsNeg amountIn then .error .invalidAmount
  else
    match getSwapDirection fromToken toToken swapInfo with
    | .error e => .error e
    | .ok swapDirection =>
        match getSwappedAmountsAndPriceImpact jsPow swapInfo swapDirection
            amountInBN marketPrice marketPriceLow marketPriceHigh with
        | .error e => .error e
        | .ok res =>
            let grossAmountOutBN := res.amountOut
            let tradeFeeBN := bnDivR .halfUp
              (bnMul grossAmountOutBN (.num (swapInfo.swapConfig.tradeFeeNumerator : ℚ)))
              (.num (swapInfo.swapConfig.tradeFeeDenominator : ℚ))
            let amountOutAfterTradeFeeBN := bnSub grossAmountOutBN tradeFeeBN
            let amountOutAfterTradeFeeWithSlippageBN := bnDivR .halfUp
              (bnMul amountOutAfterTradeFeeBN (.num (100 - maxSlippage)))
              (.num 100)
            let amountOut := bnToFixed toToken.decimals amountOutAfterTradeFeeBN
            let amountOutWithSlippage :=
              bnToFixed toToken.decimals amountOutAfterTradeFeeWithSlippageBN
            let fee := bnSub grossAmountOutBN amountOut
            let adminFeeBN := bnDivR .halfUp
              (bnMul fee (.num (swapInfo.swapConfig.adminTradeFeeNumerator : ℚ)))
              (.num (swapInfo.swapConfig.adminTradeFeeDenominator : ℚ))
            let sufficientReserve := IsSufficientReserve swapDirection swapInfo
              (exponentiate amountInBN fromToken.decimals)
              (exponentiate (bnSub grossAmountOutBN adminFeeBN) toToken.decimals)
              marketPrice
            .ok ⟨amountIn, amountOut, amountOutWithSlippage, fee, res.priceImpact,
              !sufficientReserve⟩

end Deltafi

namespace Deltafi

/-! ### Concrete fixtures used by witnesses and counterexamples -/

/-- A concrete model of the implementation-approximated finite `Math.pow`
case, used only to instantiate witnesses; every theorem that involves the
power holds for an arbitrary `jsPow`. -/
def jsPowOne : ℚ → ℚ → ℚ := fun _ _ => 1

def testBaseToken : TokenConfig := ⟨"BASE", 0⟩

def testQuoteToken : TokenConfig := ⟨"QUOTE", 0⟩

/-- A normal-swap pool with confidence intervals enabled, zero fees, and no
virtual reserves. -/
def testNormalPool : SwapInfo :=
  ⟨.normalSwap, "BASE", "QUOTE", 0, 0, ⟨100, 1000, 100, 1000⟩,
    ⟨0, 1, 0, 1, 0, 0, true, 10 ^ 18⟩⟩

/-- A stable-swap pool with slope 1, a 10% trade fee and confidence intervals
disabled. -/
def testStablePool : SwapInfo :=
  ⟨.stableSwap, "BASE", "QUOTE", 0, 0, ⟨100, 100, 100, 100⟩,
    ⟨1, 10, 0, 1, 0, 0, false, 10 ^ 18⟩⟩

/-- `swapConfig.virtualReservePercentage` replaced, everything else kept;
used to state that a computation never reads the virtual-reserve
percentage. -/
def setVirtualReservePercentage (info : SwapInfo) (v : ℕ) : SwapInfo :=
  { info with swapConfig := { info.swapConfig with virtualReservePercentage := v } }

end Deltafi

namespace Deltafi

/-! ### Helper lemmas on the bignumber.js operations -/

@[simp] theorem bnAdd_num (x y : ℚ) : bnAdd (.num x) (.num y) = .num (x + y) := rfl

@[simp] theorem bnSub_num (x y : ℚ) : bnSub (.num x) (.num y) = .num (x - y) := by
  simp [bnSub, bnAdd, BNum.neg, sub_eq_add_neg]

@[simp] theorem bnMul_num (x y : ℚ) : bnMul (.num x) (.num y) = .num (x * y) := rfl

theorem bnDivR_num (m : RMode) (x y : ℚ) (h : y ≠ 0) :
    bnDivR m (.num x) (.num y) = .num (roundDp 20 m (x / y)) := by
  simp [bnDivR, h]

@[simp] theorem bnGt_num (x y : ℚ) : bnGt (.num x) (.num y) = decide (y < x) := rfl

@[simp] theorem bnLe_num (x y : ℚ) : bnLe (.num x) (.num y) = decide (x ≤ y) := rfl

@[simp] theorem bnEq_num (x y : ℚ) : bnEq (.num x) (.num y) = decide (x = y) := rfl

@[simp] theorem bnIsNeg_num (x : ℚ) : bnIsNeg (.num x) = decide (x < 0) := rfl

@[simp] theorem bnIsNan_num (x : ℚ) : bnIsNan (.num x) = false := rfl

@[simp] theorem bnToFixed_num (dp : ℕ) (x : ℚ) :
    bnToFixed dp (.num x) = .num (roundDp dp .halfUp x) := rfl

/-! ### C3: the negative-infinity sentinel of the normal-swap kernel -/

/-- C3 counterexample: the claim says the kernel returns the -Infinity
sentinel whenever a + m ≤ 0.  At a = 0, m = 0 (with P = A = B = 1, b = 1) we
have a + m = 0 ≤ 0, yet the guard `isNegative` is strict, so the code falls
through and computes 0/0 = NaN, pow(NaN, 1) = NaN, b - NaN = NaN: the result
is NaN, not the sentinel. -/
theorem normalSwapInternal_sentinel_counterexample :
    calculateOutAmountNormalSwapInternal (fun _ _ => 0) (.num 1) (.num 1) (.num 1)
      (.num 0) (.num 1) (.num 0) = .nan ∧
    ((0 : ℚ) + 0 ≤ 0) ∧ BNum.nan ≠ BNum.ninf := by
  refine ⟨?_, by norm_num, by simp⟩
  norm_num [calculateOutAmountNormalSwapInternal, bnAdd, bnIsNeg, bnDivR, bnMul,
    bnSub, BNum.neg, jsPowExt, roundDp, floatRoundUpEps]

/-- C3 (amended): the kernel returns the -Infinity sentinel whenever
a + m is strictly negative (the code's guard is `isNegative`, i.e. <&nbsp;0);
at a + m = 0 the sentinel branch is not taken. -/
theorem normalSwapInternal_neg_sentinel (jsPow : ℚ → ℚ → ℚ)
    (P A B a b m : BNum) (h : bnIsNeg (bnAdd a m) = true) :
    calculateOutAmountNormalSwapInternal jsPow P A B a b m = .ninf := by
  simp [calculateOutAmountNormalSwapInternal, h]

theorem normalSwapInternal_neg_sentinel_witness :
    calculateOutAmountNormalSwapInternal (fun _ _ => 0) (.num 1) (.num 1) (.num 1)
      (.num 1) (.num 1) (.num (-2)) = .ninf :=
  normalSwapInternal_neg_sentinel _ _ _ _ _ _ _ (by norm_num [bnAdd, bnIsNeg])

/-! ### C7: zero input amount gives the zero result -/

/-- C7: for every pool, token pair, slippage and market-price triple, a quote
with the amount string "0" returns exactly the zero result (every numeric
field is the string "0" and insufficientLiquidity is false).  The zero check
precedes direction resolution, so this holds even for mismatched token
pairs. -/
theorem swapOut_zero_input (jsPow : ℚ → ℚ → ℚ) (swapInfo : SwapInfo)
    (fromToken toToken : TokenConfig) (maxSlippage : ℚ) (marketPrice : BNum)
    (lo hi : Option BNum) :
    calculateSwapOutResult jsPow swapInfo fromToken toToken "0" maxSlippage
      marketPrice lo hi = .ok zeroResult := by
  have hp : parseBN "0" = .num 0 := by
    norm_num +decide [parseBN, parseBNMain, parseSign, parseMantissa, parseExponent,
      takeDigits, charDigit?, digitsToNat]
  unfold calculateSwapOutResult
  rw [hp]
  norm_num

/-! ### C8: invalid input amounts -/

set_option maxHeartbeats 4000000 in
set_option maxRecDepth 4000 in
/-- C8 counterexample: the claim says every non-numeric and every negative
amount_in fails with InvalidAmount.  Both halves fail on the code: the
non-numeric string "abc" returns the empty result, and the negative numeric
string "-0x11" (new BigNumber parses the hexadecimal literal to -17, but
parseFloat stops at the x and reads -0, so the negativity check does not
fire) returns an ordinary quote on the stable test pool instead of
failing. -/
theorem swapOut_invalid_amount_counterexample :
    parseBN "abc" = .nan ∧
    calculateSwapOutResult jsPowOne testNormalPool testBaseToken testQuoteToken
      "abc" 0 (.num 2) none none = .ok emptyResult ∧
    parseBN "-0x11" = .num (-17) ∧
    calculateSwapOutResult jsPowOne testStablePool testBaseToken testQuoteToken
      "-0x11" 0 (.num 1) none none =
      .ok ⟨"-0x11", .num (-18), .num (-18), .num (-2),
        .num (16999999999999999996 / 100000000000000000000), false⟩ := by
  have hsq : ceilSqrtScaled
      (Int.toNat 40000 * 10000000000000000000000000000000000000000) 1 =
      20000000000000000000000 := by decide
  have habc : parseBN "abc" = .nan := by
    norm_num +decide [parseBN, parseBNMain, parseSign, parseMantissa,
      parseExponent, takeDigits, charDigit?, digitsToNat, stripWhitespacePlus,
      parseInfNan, parsePrefixed, parseBasePart, takeDigitsBase, digitsToNatBase,
      binDigit?, octDigit?, hexDigitLower?, hexDigitUpper?, isWhitespaceChar,
      List.dropWhile]
  have hx11 : parseBN "-0x11" = .num (-17) := by
    have h1 : parseBNMain "-0x11".data = none := rfl
    have h2 : stripWhitespacePlus "-0x11".data = "-0x11".data := rfl
    have h3 : parseInfNan "-0x11".data = none := rfl
    have h4 : parsePrefixed "-0x11".data =
        some (roundDp 20 .halfUp (-((17 : ℕ) : ℚ))) := rfl
    have h5 : roundDp 20 .halfUp (-((17 : ℕ) : ℚ)) = -17 := by
      norm_num [roundDp]
    simp only [parseBN, h1, h2, h3, h4, h5]
  refine ⟨habc, ?_, hx11, ?_⟩
  · unfold calculateSwapOutResult
    rw [habc]
    rfl
  · unfold calculateSwapOutResult
    rw [hx11]
    norm_num +decide [bnIsNan, bnEq, parseFloatIsNeg, parseFloatMag,
      isWhitespaceChar, isInfinityPrefix, takeDigits, charDigit?, digitsToNat,
      List.dropWhile, getSwapDirection, getSwappedAmountsAndPriceImpact,
      exponentiate, exponentiatedBy, normalizeMarketPriceWithDecimals,
      getSwapOutAmountSellBase, getVirtualReserves, getNormalizedReserves,
      calculateOutAmountStableSwap, calculateBalancedReservesStableSwap,
      calculateOutAmountStableSwapInternal, bnSqrtCeil20, hsq,
      getStableMarketPrice, bnFloor, bnCeil, bnMax, bnLe, bnLt, bnGt, bnAdd,
      bnSub, bnMul, BNum.neg, bnDivR, roundDp, bnAbs, bnToFixed,
      IsSufficientReserve, getReservesAfterSwap, checkIfReserveIsSufficient,
      testStablePool, testBaseToken, testQuoteToken, WAD]

/-- C8 (amended): a non-numeric amount string (one new BigNumber parses to
NaN) makes the forward quote return the empty result rather than fail; the
quote fails with InvalidAmount when the parsed amount is non-zero and the
parseFloat reading of the string is negative.  Every negative
decimal-notation amount is of that form; a base-prefixed negative amount
such as "-0x11" escapes the check because parseFloat reads it as -0. -/
theorem swapOut_invalid_amount (jsPow : ℚ → ℚ → ℚ) (swapInfo : SwapInfo)
    (fromToken toToken : TokenConfig) (s : String) (maxSlippage : ℚ)
    (marketPrice : BNum) (lo hi : Option BNum) :
    (parseBN s = .nan →
      calculateSwapOutResult jsPow swapInfo fromToken toToken s maxSlippage
        marketPrice lo hi = .ok emptyResult) ∧
    (∀ q : ℚ, parseBN s = .num q → q ≠ 0 → parseFloatIsNeg s = true →
      calculateSwapOutResult jsPow swapInfo fromToken toToken s maxSlippage
        marketPrice lo hi = .error .invalidAmount) := by
  constructor
  · intro h
    unfold calculateSwapOutResult
    rw [h]
    rfl
  · intro q h hq hneg
    unfold calculateSwapOutResult
    rw [h, hneg]
    simp [bnIsNan, bnEq, hq]

theorem swapOut_invalid_amount_witness :
    calculateSwapOutResult jsPowOne testNormalPool testBaseToken testQuoteToken
      "-1" 0 (.num 2) none none = .error .invalidAmount := by
  have hp : parseBN "-1" = .num (-1) := by
    norm_num +decide [parseBN, parseBNMain, parseSign, parseMantissa,
      parseExponent, takeDigits, charDigit?, digitsToNat]
  have hneg : parseFloatIsNeg "-1" = true := by
    norm_num +decide [parseFloatIsNeg, parseFloatMag, isWhitespaceChar,
      isInfinityPrefix, takeDigits, charDigit?, digitsToNat, List.dropWhile]
  exact (swapOut_invalid_amount jsPowOne testNormalPool testBaseToken
    testQuoteToken "-1" 0 (.num 2) none none).2 (-1) hp (by norm_num) hneg

/-! ### C10: the forward quote entry point is a pure function -/

/-- C10: determinism of the forward quote: two invocations with equal pool
info, token configs, amount string, slippage and market prices (and the same
platform power function) return equal SwapResult records.  The embedding is a
pure function precisely because the source reads no ambient state. -/
theorem swapOut_deterministic (jsPow : ℚ → ℚ → ℚ)
    (i₁ i₂ : SwapInfo) (f₁ f₂ t₁ t₂ : TokenConfig) (s₁ s₂ : String)
    (sl₁ sl₂ : ℚ) (mp₁ mp₂ : BNum) (lo₁ lo₂ hi₁ hi₂ : Option BNum)
    (ha : i₁ = i₂) (hb : f₁ = f₂) (hc : t₁ = t₂) (hd : s₁ = s₂)
    (he : sl₁ = sl₂) (hf : mp₁ = mp₂) (hg : lo₁ = lo₂) (hh : hi₁ = hi₂) :
    calculateSwapOutResult jsPow i₁ f₁ t₁ s₁ sl₁ mp₁ lo₁ hi₁ =
      calculateSwapOutResult jsPow i₂ f₂ t₂ s₂ sl₂ mp₂ lo₂ hi₂ := by
  subst ha hb hc hd he hf hg hh
  rfl

theorem swapOut_deterministic_witness :
    calculateSwapOutResult jsPowOne testStablePool testBaseToken testQuoteToken
      "900" 0 (.num 1) none none =
    calculateSwapOutResult jsPowOne testStablePool testBaseToken testQuoteToken
      "900" 0 (.num 1) none none :=
  swapOut_deterministic jsPowOne testStablePool testStablePool testBaseToken
    testBaseToken testQuoteToken testQuoteToken "900" "900" 0 0 (.num 1) (.num 1)
    none none none none rfl rfl rfl rfl rfl rfl rfl rfl

end Deltafi

namespace Deltafi

/-! ### C2: market-price selection under confidence intervals -/

set_option maxHeartbeats 4000000 in
set_option maxRecDepth 4000 in
/-- C2 counterexample: the claim says the HIGH price is used for the
sell-base direction.  In this pool (targets 100 / 1000, equal decimals) a
price p feeds the curve exponent p * A / B; the price 3000 makes the
exponent ceiling 300 which trips the validate "exponent is too large".  A
sell-base quote with mid 2, low 2, high 3000 succeeds, so the high price is
NOT what the sell-base quote uses; moving 3000 into the low argument makes
the very same quote throw, so the sell-base quote is computed from the LOW
price. -/
theorem swapOut_confidence_price_selection_counterexample :
    (calculateSwapOutResult jsPowOne testNormalPool testBaseToken testQuoteToken
      "1" 0 (.num 2) (some (.num 2)) (some (.num 3000)) =
      .ok ⟨"1", .num 1, .num 1, .num 0, .num 1, false⟩) ∧
    (calculateSwapOutResult jsPowOne testNormalPool testBaseToken testQuoteToken
      "1" 0 (.num 2) (some (.num 3000)) (some (.num 3000)) =
      .error (.internalInvariant "exponent is too large")) := by
  constructor <;>
    norm_num +decide [calculateSwapOutResult, parseBN, parseBNMain, parseSign,
      parseMantissa, parseExponent, takeDigits, charDigit?, digitsToNat, bnIsNan,
      bnEq, parseFloatIsNeg, parseFloatMag, isWhitespaceChar, isInfinityPrefix,
      List.dropWhile,
      getSwapDirection, getSwappedAmountsAndPriceImpact, exponentiate, exponentiatedBy,
      normalizeMarketPriceWithDecimals, getSwapOutAmountSellBase, getVirtualReserves,
      getNormalizedReserves, calculateOutAmountNormalSwap, approximateOutAmount,
      approxImpliedOutAmount, approxExpCeil, approxDiff, approximateUpperBoundK,
      bnPowInt, bnPowNat, calculateOutAmountNormalSwapInternal, jsPowExt, jsPowOne,
      floatRoundUpEps, bnFloor, bnCeil, bnMax, bnLe, bnLt, bnGt, bnAdd, bnSub, bnMul,
      BNum.neg, bnDivR, roundDp, bnAbs, bnToFixed, IsSufficientReserve,
      getReservesAfterSwap, checkIfReserveIsSufficient, testNormalPool, testBaseToken,
      testQuoteToken, qOddInt, WAD]

/-- C2 (amended): when enable_confidence_interval is false or either bound is
absent, the mid price is used for both directions; otherwise the engine uses
the LOW price for the sell-base direction and the HIGH price for the
sell-quote direction (the callers place low in the marketPriceSellBase slot
and high in the marketPriceSellQuote slot). -/
theorem swapOut_confidence_price_selection (jsPow : ℚ → ℚ → ℚ) (info : SwapInfo)
    (dir : SwapDirection) (m mid lo hi : BNum) :
    (info.swapConfig.enableConfidenceInterval = true →
      getSwappedAmountsAndPriceImpact jsPow info dir m mid (some lo) (some hi) =
        getSwappedAmountsAndPriceImpact jsPow info dir m
          (match dir with | .sellBase => lo | .sellQuote => hi)
          (some (match dir with | .sellBase => lo | .sellQuote => hi))
          (some (match dir with | .sellBase => lo | .sellQuote => hi))) ∧
    (info.swapConfig.enableConfidenceInterval = false →
      getSwappedAmountsAndPriceImpact jsPow info dir m mid (some lo) (some hi) =
        getSwappedAmountsAndPriceImpact jsPow info dir m mid none none) ∧
    (getSwappedAmountsAndPriceImpact jsPow info dir m mid none none =
      getSwappedAmountsAndPriceImpact jsPow info dir m mid (some mid) (some mid)) := by
  refine ⟨?_, ?_, ?_⟩
  · intro h
    cases dir <;> simp [getSwappedAmountsAndPriceImpact, h]
  · intro h
    cases dir <;> simp [getSwappedAmountsAndPriceImpact, h]
  · cases hci : info.swapConfig.enableConfidenceInterval <;>
      cases dir <;> simp [getSwappedAmountsAndPriceImpact, hci]

theorem swapOut_confidence_price_selection_witness :
    getSwappedAmountsAndPriceImpact jsPowOne testNormalPool .sellBase (.num 1)
      (.num 2) (some (.num 2)) (some (.num 3000)) =
    getSwappedAmountsAndPriceImpact jsPowOne testNormalPool .sellBase (.num 1)
      (.num 2) (some (.num 2)) (some (.num 2)) :=
  (swapOut_confidence_price_selection jsPowOne testNormalPool .sellBase (.num 1)
    (.num 2) (.num 2) (.num 3000)).1 rfl

end Deltafi

namespace Deltafi

/-! ### C1: the normal-swap output never exceeds the implied out amount -/

/-- C1: whenever `calculateOutAmountNormalSwap` returns normally, the
returned outAmount is at most the (floored) implied out amount computed by
`approximateOutAmount`, and it equals the floored closed-form result or the
maximum of that and the approximation result when the latter is available;
when the bound would be violated the function raises an error instead.  This
holds for every power function, i.e. independently of the floating-point
`Math.pow` result. -/
theorem calculateOutAmountNormalSwap_le_implied (jsPow : ℚ → ℚ → ℚ)
    (P A B a b m : BNum) (ar : ApproxResult) (r : OutResult)
    (har : approximateOutAmount a b A B P m = .ok ar)
    (h : calculateOutAmountNormalSwap jsPow P A B a b m = .ok r) :
    bnLe r.outAmount ar.impliedOutAmount = true ∧
    r.outAmount =
      (match ar.approximationResult with
       | none => bnFloor (calculateOutAmountNormalSwapInternal jsPow P A B a b m)
       | some v => bnMax v (bnFloor (calculateOutAmountNormalSwapInternal jsPow P A B a b m))) := by
  simp only [calculateOutAmountNormalSwap] at h
  rw [har] at h
  split at h
  · rename_i e he
    exact absurd he (by simp)
  · rename_i ar2 he
    injection he with he
    subst he
    split at h
    · rename_i hle
      split at h
      · injection h with h
        subst h
        exact ⟨hle, rfl⟩
      · injection h with h
        subst h
        exact ⟨hle, rfl⟩
    · exact absurd h (by simp)

set_option maxHeartbeats 1000000 in
theorem calculateOutAmountNormalSwap_le_implied_witness :
    approximateOutAmount (.num 100) (.num 1000) (.num 100) (.num 1000) (.num 2)
      (.num 1) = .ok ⟨.num 2, some (.num 1)⟩ ∧
    calculateOutAmountNormalSwap jsPowOne (.num 2) (.num 100) (.num 1000)
      (.num 100) (.num 1000) (.num 1) = .ok ⟨.num 1, .num 1⟩ ∧
    bnLe (.num 1) (.num 2) = true := by
  have har : approximateOutAmount (.num 100) (.num 1000) (.num 100) (.num 1000)
      (.num 2) (.num 1) = .ok ⟨.num 2, some (.num 1)⟩ := by
    norm_num [approximateOutAmount, approxImpliedOutAmount, approxExpCeil,
      approxDiff, approximateUpperBoundK, bnPowInt, bnPowNat, bnFloor, bnCeil,
      bnLe, bnLt, bnAdd, bnSub, bnMul, BNum.neg, bnDivR, roundDp, bnAbs]
  have h : calculateOutAmountNormalSwap jsPowOne (.num 2) (.num 100) (.num 1000)
      (.num 100) (.num 1000) (.num 1) = .ok ⟨.num 1, .num 1⟩ := by
    norm_num [calculateOutAmountNormalSwap, approximateOutAmount,
      approxImpliedOutAmount, approxExpCeil, approxDiff, approximateUpperBoundK,
      bnPowInt, bnPowNat, calculateOutAmountNormalSwapInternal, jsPowExt, jsPowOne,
      floatRoundUpEps, bnFloor, bnCeil, bnMax, bnLe, bnLt, bnEq, bnAdd, bnSub,
      bnMul, BNum.neg, bnDivR, roundDp, bnAbs, bnIsNeg, qOddInt]
  exact ⟨har, h, (calculateOutAmountNormalSwap_le_implied jsPowOne (.num 2)
    (.num 100) (.num 1000) (.num 100) (.num 1000) (.num 1)
    ⟨.num 2, some (.num 1)⟩ ⟨.num 1, .num 1⟩ har h).1⟩

/-! ### C4: skip conditions and bound of the approximation -/

/-- C4: whenever `approximateOutAmount` returns normally, (i) it returns the
skip sentinel if a ≤ m * expCeil or b ≤ m, (ii) it returns the skip sentinel
if the absolute implied amount is at most the diff term, and (iii) whenever
it does not skip, the approximation result is at most the implied out
amount. -/
theorem approximateOutAmount_skip_and_bound
    (a b A B P m : BNum) (r : ApproxResult)
    (h : approximateOutAmount a b A B P m = .ok r) :
    ((bnLe a (bnMul m (approxExpCeil P A B)) || bnLe b m) = true →
      r.approximationResult = none) ∧
    (bnLe (bnAbs (approxImpliedOutAmount a b A B P m)) (approxDiff a b A B P m) = true →
      r.approximationResult = none) ∧
    (∀ v, r.approximationResult = some v → bnLe v r.impliedOutAmount = true) := by
  simp only [approximateOutAmount] at h
  split at h
  · split at h
    · injection h with h
      subst h
      exact ⟨fun _ => rfl, fun _ => rfl, by intro v hv; simp at hv⟩
    · rename_i hskip1
      split at h
      · injection h with h
        subst h
        exact ⟨fun _ => rfl, fun _ => rfl, by intro v hv; simp at hv⟩
      · rename_i hskip2
        split at h
        · rename_i hle
          injection h with h
          subst h
          refine ⟨fun hc => absurd hc hskip1, fun hc => absurd hc hskip2, ?_⟩
          intro v hv
          injection hv with hv
          subst hv
          exact hle
        · exact absurd h (by simp)
  · exact absurd h (by simp)

theorem approximateOutAmount_skip_and_bound_witness :
    approximateOutAmount (.num 1) (.num 1) (.num 1) (.num 1) (.num 1) (.num 5) =
      .ok ⟨.num 5, none⟩ ∧
    (⟨.num 5, none⟩ : ApproxResult).approximationResult = none := by
  have h : approximateOutAmount (.num 1) (.num 1) (.num 1) (.num 1) (.num 1)
      (.num 5) = .ok ⟨.num 5, none⟩ := by
    norm_num [approximateOutAmount, approxImpliedOutAmount, approxExpCeil,
      approxDiff, approximateUpperBoundK, bnPowInt, bnPowNat, bnFloor, bnCeil,
      bnLe, bnLt, bnAdd, bnSub, bnMul, BNum.neg, bnDivR, roundDp, bnAbs]
  refine ⟨h, (approximateOutAmount_skip_and_bound (.num 1) (.num 1) (.num 1)
    (.num 1) (.num 1) (.num 5) ⟨.num 5, none⟩ h).1 ?_⟩
  norm_num [approxExpCeil, bnLe, bnMul, bnDivR, roundDp, bnCeil]

/-! ### C6: where virtual reserves enter the computation -/

/-- C6: the virtual reserves are the normalized reserves scaled by
virtualReservePercentage / 100; they augment the current reserves only in the
inputs of the normal-swap kernel; the stable-swap kernel receives the
unaugmented current reserves (and ignores the virtual-reserve percentage
entirely), and the reserve-sufficiency check is likewise independent of the
virtual-reserve percentage. -/
theorem virtualReserves_usage (jsPow : ℚ → ℚ → ℚ) (info : SwapInfo) (m P : BNum) :
    (getVirtualReserves info P =
      (bnMul (getNormalizedReserves (.num (info.poolState.baseReserve : ℚ))
          (.num (info.poolState.quoteReserve : ℚ))
          (.num (info.poolState.targetBaseReserve : ℚ))
          (.num (info.poolState.targetQuoteReserve : ℚ)) P).1
        (bnDivR .halfUp (.num (info.swapConfig.virtualReservePercentage : ℚ)) (.num 100)),
       bnMul (getNormalizedReserves (.num (info.poolState.baseReserve : ℚ))
          (.num (info.poolState.quoteReserve : ℚ))
          (.num (info.poolState.targetBaseReserve : ℚ))
          (.num (info.poolState.targetQuoteReserve : ℚ)) P).2
        (bnDivR .halfUp (.num (info.swapConfig.virtualReservePercentage : ℚ)) (.num 100)))) ∧
    (info.swapType = .normalSwap →
      getSwapOutAmountSellBase jsPow info m P =
        calculateOutAmountNormalSwap jsPow P
          (.num (info.poolState.targetBaseReserve : ℚ))
          (.num (info.poolState.targetQuoteReserve : ℚ))
          (bnAdd (.num (info.poolState.baseReserve : ℚ)) (getVirtualReserves info P).1)
          (bnAdd (.num (info.poolState.quoteReserve : ℚ)) (getVirtualReserves info P).2)
          m) ∧
    (info.swapType = .stableSwap →
      getSwapOutAmountSellBase jsPow info m P =
        .ok (calculateOutAmountStableSwap (getStableMarketPrice info)
          (.num (info.poolState.baseReserve : ℚ))
          (.num (info.poolState.quoteReserve : ℚ)) m
          (bnDivR .halfUp (.num (info.swapConfig.slope : ℚ)) (.num WAD)))) ∧
    (∀ v dir inA outA,
      IsSufficientReserve dir (setVirtualReservePercentage info v) inA outA P =
        IsSufficientReserve dir info inA outA P) ∧
    (∀ v, info.swapType = .stableSwap →
      getSwapOutAmountSellBase jsPow (setVirtualReservePercentage info v) m P =
        getSwapOutAmountSellBase jsPow info m P) := by
  refine ⟨rfl, ?_, ?_, ?_, ?_⟩
  · intro h
    simp [getSwapOutAmountSellBase, h]
  · intro h
    simp [getSwapOutAmountSellBase, h]
  · intro v dir inA outA
    rfl
  · intro v h
    simp [getSwapOutAmountSellBase, setVirtualReservePercentage, h,
      getStableMarketPrice]

theorem virtualReserves_usage_witness :
    getSwapOutAmountSellBase jsPowOne testStablePool (.num 900) (.num 1) =
      .ok (calculateOutAmountStableSwap (getStableMarketPrice testStablePool)
        (.num (testStablePool.poolState.baseReserve : ℚ))
        (.num (testStablePool.poolState.quoteReserve : ℚ)) (.num 900)
        (bnDivR .halfUp (.num (testStablePool.swapConfig.slope : ℚ)) (.num WAD))) :=
  (virtualReserves_usage jsPowOne testStablePool (.num 900) (.num 1)).2.2.1 rfl

end Deltafi

namespace Deltafi

/-! ### C5: the reserve-sufficiency predicate -/

/-- C5: the sufficiency predicate holds exactly when, after applying the
trade to the reserves (input added on the sell side, output subtracted on the
other), both the post-trade base reserve strictly exceeds L/100 of the
post-trade normalized base reserve and the post-trade quote reserve strictly
exceeds L/100 of the post-trade normalized quote reserve, with
L = minReserveLimitPercentage and the normalized reserves recomputed from the
post-trade reserves (all quotients carrying the engine's 20-decimal-place
rounding). -/
theorem isSufficientReserve_iff (dir : SwapDirection) (info : SwapInfo)
    (inA outA P : ℚ)
    (hden : ((info.poolState.targetBaseReserve : ℚ) * P +
      (info.poolState.targetQuoteReserve : ℚ)) ≠ 0) :
    (IsSufficientReserve dir info (.num inA) (.num outA) (.num P) = true ↔
      (let ba : ℚ := match dir with
         | .sellBase => (info.poolState.baseReserve : ℚ) + inA
         | .sellQuote => (info.poolState.baseReserve : ℚ) - outA
       let qa : ℚ := match dir with
         | .sellBase => (info.poolState.quoteReserve : ℚ) - outA
         | .sellQuote => (info.poolState.quoteReserve : ℚ) + inA
       let coef : ℚ := roundDp 20 .halfUp ((ba * P + qa) /
         ((info.poolState.targetBaseReserve : ℚ) * P +
          (info.poolState.targetQuoteReserve : ℚ)))
       roundDp 20 .halfUp (coef * (info.poolState.targetBaseReserve : ℚ) *
         (info.swapConfig.minReserveLimitPercentage : ℚ) / 100) < ba ∧
       roundDp 20 .halfUp (coef * (info.poolState.targetQuoteReserve : ℚ) *
         (info.swapConfig.minReserveLimitPercentage : ℚ) / 100) < qa)) := by
  cases dir <;>
    simp only [IsSufficientReserve, getReservesAfterSwap, getNormalizedReserves,
      checkIfReserveIsSufficient, bnAdd_num, bnSub_num, bnMul_num,
      bnDivR_num _ _ _ hden, bnDivR_num _ _ _ (show (100 : ℚ) ≠ 0 by norm_num),
      bnGt_num, Bool.and_eq_true, decide_eq_true_eq]

theorem isSufficientReserve_iff_witness :
    IsSufficientReserve .sellBase testNormalPool (.num 1) (.num 1) (.num 2) = true := by
  refine (isSufficientReserve_iff .sellBase testNormalPool 1 1 2 ?_).mpr ?_
  · norm_num [testNormalPool]
  · norm_num [testNormalPool, roundDp]

/-! ### C9: net output plus fee equals gross output -/

/-- C9: in a successful forward quote whose gross output is finite, the
returned net amount_out plus the returned fee equals the gross curve output
exactly: the fee is computed as the gross output minus the value of the
rendered amount_out string, so the sum telescopes whatever the final string
rounding did. -/
theorem swapOut_fee_accounting (jsPow : ℚ → ℚ → ℚ) (info : SwapInfo)
    (fromToken toToken : TokenConfig) (s : String) (maxSlippage : ℚ)
    (mid : BNum) (lo hi : Option BNum) (q x : ℚ) (dir : SwapDirection)
    (g : SwappedAmounts) (r : SwapResult)
    (hparse : parseBN s = .num q) (hq : 0 < q)
    (hdir : getSwapDirection fromToken toToken info = .ok dir)
    (hg : getSwappedAmountsAndPriceImpact jsPow info dir (.num q) mid lo hi = .ok g)
    (hx : g.amountOut = .num x)
    (hfd : info.swapConfig.tradeFeeDenominator ≠ 0)
    (hr : calculateSwapOutResult jsPow info fromToken toToken s maxSlippage mid
      lo hi = .ok r) :
    bnAdd r.amountOut r.fee = g.amountOut := by
  have hz : decide (q = 0) = false := decide_eq_false (ne_of_gt hq)
  unfold calculateSwapOutResult at hr
  rw [hparse] at hr
  simp only [bnIsNan_num, bnEq_num, hz, Bool.false_eq_true, if_false] at hr
  split at hr
  · exact absurd hr (by simp)
  split at hr
  · rename_i e he
    rw [hdir] at he
    exact absurd he (by simp)
  · rename_i dir2 he
    rw [hdir] at he
    injection he with he
    subst he
    split at hr
    · rename_i e he2
      rw [hg] at he2
      exact absurd he2 (by simp)
    · rename_i g2 he2
      rw [hg] at he2
      injection he2 with he2
      subst he2
      injection hr with hr
      subst hr
      rw [hx]
      have htfd : ((info.swapConfig.tradeFeeDenominator : ℚ)) ≠ 0 :=
        Nat.cast_ne_zero.mpr hfd
      simp only [bnMul_num, bnDivR_num _ _ _ htfd, bnSub_num, bnToFixed_num,
        bnAdd_num]
      congr 1
      ring

set_option maxHeartbeats 4000000 in
set_option maxRecDepth 4000 in
theorem swapOut_fee_accounting_witness :
    bnAdd (.num 81) (.num 9) = .num 90 := by
  have h1 : ceilSqrtScaled
      (Int.toNat 40000 * 10000000000000000000000000000000000000000) 1 =
      20000000000000000000000 := by decide
  have hparse : parseBN "900" = .num 900 := by
    norm_num +decide [parseBN, parseBNMain, parseSign, parseMantissa,
      parseExponent, takeDigits, charDigit?, digitsToNat]
  have hdir : getSwapDirection testBaseToken testQuoteToken testStablePool =
      .ok .sellBase := by
    simp +decide [getSwapDirection, testBaseToken, testQuoteToken, testStablePool]
  have hg : getSwappedAmountsAndPriceImpact jsPowOne testStablePool .sellBase
      (.num 900) (.num 1) none none = .ok ⟨.num 900, .num 90, .num 9⟩ := by
    norm_num [getSwappedAmountsAndPriceImpact, exponentiate, exponentiatedBy,
      normalizeMarketPriceWithDecimals, getSwapOutAmountSellBase,
      getVirtualReserves, getNormalizedReserves, calculateOutAmountStableSwap,
      calculateBalancedReservesStableSwap, calculateOutAmountStableSwapInternal,
      bnSqrtCeil20, h1, getStableMarketPrice, bnFloor, bnCeil, bnMax, bnLe, bnLt,
      bnGt, bnEq, bnAdd, bnSub, bnMul, BNum.neg, bnDivR, roundDp, bnAbs,
      bnToFixed, testStablePool, WAD]
  have hr : calculateSwapOutResult jsPowOne testStablePool testBaseToken
      testQuoteToken "900" 0 (.num 1) none none =
      .ok ⟨"900", .num 81, .num 81, .num 9, .num 9, false⟩ := by
    norm_num +decide [calculateSwapOutResult, parseBN, parseBNMain, parseSign,
      parseMantissa, parseExponent, takeDigits, charDigit?, digitsToNat, bnIsNan,
      bnEq, parseFloatIsNeg, parseFloatMag, isWhitespaceChar, isInfinityPrefix,
      List.dropWhile, getSwapDirection, getSwappedAmountsAndPriceImpact, exponentiate,
      exponentiatedBy, normalizeMarketPriceWithDecimals, getSwapOutAmountSellBase,
      getVirtualReserves, getNormalizedReserves, calculateOutAmountStableSwap,
      calculateBalancedReservesStableSwap, calculateOutAmountStableSwapInternal,
      bnSqrtCeil20, h1, getStableMarketPrice, bnFloor, bnCeil, bnMax, bnLe, bnLt,
      bnGt, bnAdd, bnSub, bnMul, BNum.neg, bnDivR, roundDp, bnAbs, bnToFixed,
      IsSufficientReserve, getReservesAfterSwap, checkIfReserveIsSufficient,
      testStablePool, testBaseToken, testQuoteToken, WAD]
  exact swapOut_fee_accounting jsPowOne testStablePool testBaseToken
    testQuoteToken "900" 0 (.num 1) none none 900 90 .sellBase
    ⟨.num 900, .num 90, .num 9⟩ ⟨"900", .num 81, .num 81, .num 9, .num 9, false⟩
    hparse (by norm_num) hdir hg rfl (by norm_num [testStablePool]) hr

end Deltafi
